import Mathlib

/-!
Verification of the streaming acquisition and format-conversion pipeline of
`bladerf_source_c` (src/lib/bladerf/bladerf_source_c.cc), a GNU Radio source
block for the bladeRF radio.

The embedding models:
  * the fixed-point to floating-point sample conversion loop of `work()`
    (lines 351-357), with the C `float` arithmetic modelled as exact
    rationals (the claims are about the conversion formula, not rounding);
  * the deinterleaving/routing step of `work()` (lines 364-378);
  * the session state machine (`start`/`stop`/`work`): the `_running` flag,
    the consecutive-failure counter `_failures`, the scratch buffers
    `_16icbuf`/`_32fcbuf` and the software channel-enable map.

Device interactions (`bladerf_sync_config`, `bladerf_enable_module`,
`bladerf_sync_rx`) are modelled as outcome parameters supplied by the
environment; a thrown C++ exception is modelled as an `Except.error` result
paired with the object state as mutated so far.
-/

namespace BladerfSource

/-- Two's-complement 16-bit bit pattern of a raw buffer word (`int16_t`),
as a nonnegative integer in `[0, 65536)`. -/
def bits16 (w : ℤ) : ℤ := w % 65536

/-- C expression `w & 0xFF` on an `int16_t` word: the low byte of the
two's-complement pattern, as an unsigned value in `[0, 256)`. -/
def lowByte (w : ℤ) : ℤ := w % 256

/-- C expression `(w >> 8) & 0xFF` on an `int16_t` word (arithmetic shift,
then mask): the high byte of the two's-complement pattern. -/
def highByte (w : ℤ) : ℤ := (bits16 w / 256) % 256

/-- C cast `(int8_t) b` of a byte value: reinterpret the low 8 bits as a
two's-complement signed value in `[-128, 127]`. -/
def int8OfByte (b : ℤ) : ℤ :=
  if b % 256 < 128 then b % 256 else b % 256 - 256

/-- The scalar conversion applied to each extracted component inside
`work()`: `((float)((int8_t) b)) / 127.0`, modelled exactly over ℚ. -/
def cvtComponent (b : ℤ) : ℚ := ((int8OfByte b : ℤ) : ℚ) / 127

/-- The byte (two's-complement bit pattern) of a signed 8-bit component
value `x`; used to feed a component with known value into the converter. -/
def byteOfInt8 (x : ℤ) : ℤ := x % 256

/-- One iteration body of the conversion loop in `work()` at loop index `i`
(lines 352-356): four writes into the float buffer
  `fbuf[i*2+0] = cvt(lowByte raw[i])`, `fbuf[i*2+1] = cvt(lowByte raw[i+1])`,
  `fbuf[i*2+2] = cvt(highByte raw[i])`, `fbuf[i*2+3] = cvt(highByte raw[i+1])`.
The buffer is modelled as a function from index to value; later writes in
the iteration are checked first so that they win (the four indices are in
fact pairwise distinct). -/
def convWrite (raw : Nat → ℤ) (i : Nat) (fbuf : Nat → ℚ) : Nat → ℚ :=
  fun m =>
    if m = i * 2 + 3 then cvtComponent (highByte (raw (i + 1)))
    else if m = i * 2 + 2 then cvtComponent (highByte (raw i))
    else if m = i * 2 + 1 then cvtComponent (lowByte (raw (i + 1)))
    else if m = i * 2 then cvtComponent (lowByte (raw i))
    else fbuf m

/-- The conversion loop `for (int i=0; i<noutput_items; i+=2)` of `work()`,
run for `t` iterations: iteration number `u` (0-based) has loop index
`i = 2*u`, and iterations are applied in program order (latest last). -/
def convLoop (raw : Nat → ℤ) : Nat → (Nat → ℚ) → Nat → ℚ
  | 0, fbuf => fbuf
  | t + 1, fbuf => convWrite raw (2 * t) (convLoop raw t fbuf)

/-- Number of iterations of the conversion loop for `noutput_items = n`:
the loop indices are `0, 2, 4, ...` below `n`. -/
def convIters (n : Nat) : Nat := (n + 1) / 2

/-- The byte of the raw buffer that the conversion loop of `work()` reads
for output component position `m`: the loop's write pattern assigns
positions `4j, 4j+1, 4j+2, 4j+3` the bytes
`low raw[2j], low raw[2j+1], high raw[2j], high raw[2j+1]` respectively.
This merely describes the loop's reads; the raw buffer's own component
order is `bufByteAt` below, and the two differ (see `quadPerm`). -/
def rawByteAt (raw : Nat → ℤ) (m : Nat) : ℤ :=
  if m % 4 = 0 then lowByte (raw (2 * (m / 4)))
  else if m % 4 = 1 then lowByte (raw (2 * (m / 4) + 1))
  else if m % 4 = 2 then highByte (raw (2 * (m / 4)))
  else highByte (raw (2 * (m / 4) + 1))

/-- The `m`-th 8-bit slot of the raw buffer in the buffer's own memory
order: the `int16_t` words are stored little-endian on the supported
hosts, so byte `2i` of the buffer is the low byte of word `i` and byte
`2i+1` its high byte. -/
def bufByteAt (raw : Nat → ℤ) (m : Nat) : ℤ :=
  if m % 2 = 0 then lowByte (raw (m / 2)) else highByte (raw (m / 2))

/-- The `m`-th fixed-point component of the raw buffer in the buffer's
memory order, as a signed 8-bit value. -/
def bufComponentAt (raw : Nat → ℤ) (m : Nat) : ℤ := int8OfByte (bufByteAt raw m)

/-- The index permutation that the conversion loop of `work()` applies to
the raw buffer's component stream: within every aligned group of four
positions the two middle positions are exchanged and the two outer
positions are fixed. -/
def quadPerm (m : Nat) : Nat :=
  if m % 4 = 1 then m + 1 else if m % 4 = 2 then m - 1 else m

/-- After `t` iterations the conversion loop has written exactly the
positions below `4*t`, each with the conversion of the raw component at
that position; all other positions still hold the previous buffer
contents. -/
theorem convLoop_apply (raw : Nat → ℤ) (init : Nat → ℚ) :
    ∀ t m, convLoop raw t init m =
      if m < 4 * t then cvtComponent (rawByteAt raw m) else init m := by
  intro t
  induction t with
  | zero =>
    intro m
    simp [convLoop]
  | succ t ih =>
    intro m
    show convWrite raw (2 * t) (convLoop raw t init) m = _
    unfold convWrite
    rcases Nat.lt_or_ge m (4 * t) with hlt | hge
    · rw [if_neg (by omega), if_neg (by omega), if_neg (by omega),
        if_neg (by omega), ih m, if_pos hlt, if_pos (by omega)]
    · rcases Nat.lt_or_ge m (4 * t + 4) with hlt2 | hge2
      · have hm : m = 4 * t ∨ m = 4 * t + 1 ∨ m = 4 * t + 2 ∨ m = 4 * t + 3 := by
          omega
        have h4 : (4 * t) % 4 = 0 ∧ (4 * t + 1) % 4 = 1 ∧ (4 * t + 2) % 4 = 2 ∧
            (4 * t + 3) % 4 = 3 := by omega
        have hdiv : (4 * t) / 4 = t ∧ (4 * t + 1) / 4 = t ∧ (4 * t + 2) / 4 = t ∧
            (4 * t + 3) / 4 = t := by omega
        rcases hm with h | h | h | h <;> subst h
        · rw [if_neg (by omega), if_neg (by omega), if_neg (by omega),
            if_pos (by omega), if_pos (by omega)]
          rw [rawByteAt, if_pos h4.1, hdiv.1]
        · rw [if_neg (by omega), if_neg (by omega), if_pos (by omega),
            if_pos (by omega)]
          rw [rawByteAt, if_neg (by omega), if_pos h4.2.1, hdiv.2.1]
        · rw [if_neg (by omega), if_pos (by omega), if_pos (by omega)]
          rw [rawByteAt, if_neg (by omega), if_neg (by omega),
            if_pos h4.2.2.1, hdiv.2.2.1]
        · rw [if_pos (by omega), if_pos (by omega)]
          rw [rawByteAt, if_neg (by omega), if_neg (by omega),
            if_neg (by omega), hdiv.2.2.2]
      · rw [if_neg (by omega), if_neg (by omega), if_neg (by omega),
          if_neg (by omega), ih m, if_neg (by omega), if_neg (by omega)]

/-- Session state of the source block: the `_running` flag, the
consecutive-failure counter `_failures`, the scratch buffers `_16icbuf`
(raw `int16_t` words) and `_32fcbuf` (converted floats), modelled as
`none` when the pointer is NULL, and the software channel-enable map
consulted by `get_channel_enable`. -/
structure State where
  running : Bool
  failures : Nat
  buf16 : Option (Nat → ℤ)
  buf32 : Option (Nat → ℚ)
  chanEnable : Nat → Bool

/-- Outcome of one `bladerf_sync_rx` call: success delivers the raw buffer
contents, failure (nonzero status) leaves the buffer contents undefined
(the model keeps the stale contents, which the code then goes on to use). -/
inductive RxOutcome where
  | ok (data : Nat → ℤ)
  | err

/-- Modelled from the spec: `MAX_CONSECUTIVE_FAILURES`, the fixed
consecutive-failure threshold, is declared in a header outside the given
sources; the spec gives "a fixed threshold (e.g. 3)". -/
def MAX_CONSECUTIVE_FAILURES : Nat := 3

/-- Modelled from the spec: `WORK_DONE`, the block framework's terminal
signal returned by `work()` instead of a produced count, is the framework
constant -1. -/
def WORK_DONE : Int := -1

/-- Result of a `start()`/`stop()` call: the returned boolean, or
`Except.error` when the call threw, together with the object state as
left behind by the call. -/
structure CallResult where
  ret : Except Unit Bool
  st : State

/-- The `for (ch = 0; ch < maxCh; ++ch)` loops of `start()`/`stop()`
(lines 231-239 and 294-302): for each channel with `get_channel_enable`
true, call `bladerf_enable_module`; a nonzero status throws. `devOk ch`
is the device outcome for channel `ch`; the result is `true` when the
loop runs to completion without throwing. Recursion is over the number
of remaining channels `k`, with `ch` the current index. -/
def enableLoopOk (enabled devOk : Nat → Bool) : Nat → Nat → Bool
  | _, 0 => true
  | ch, k + 1 =>
    if enabled ch then
      if devOk ch then enableLoopOk enabled devOk (ch + 1) k else false
    else enableLoopOk enabled devOk (ch + 1) k

/-- `bladerf_source_c::start()` (lines 216-277): apply the stream
configuration (throwing on failure), enable each enabled channel
(throwing on failure), allocate the scratch buffers, set `_running = true`
and return `true`. `configOk` is the outcome of `bladerf_sync_config`;
`enableOk` the per-channel outcomes of `bladerf_enable_module`. The
freshly `volk_malloc`ed buffers have indeterminate contents, modelled as
zeros (no claim inspects them before they are written). The `_running`
flag is only assigned after every fallible step has succeeded, so a
throw leaves the session state untouched. -/
def start (s : State) (maxCh : Nat) (configOk : Bool) (enableOk : Nat → Bool) :
    CallResult :=
  if configOk then
    if enableLoopOk s.chanEnable enableOk 0 maxCh then
      ⟨Except.ok true,
        { s with buf16 := some fun _ => 0, buf32 := some fun _ => 0,
                 running := true }⟩
    else ⟨Except.error (), s⟩
  else ⟨Except.error (), s⟩

/-- `bladerf_source_c::stop()` (lines 279-311): if not running, warn and
return `true` immediately (no side effects); otherwise clear `_running`
first, then disable each enabled channel (throwing on failure, with
`_running` already false), then free the scratch buffers and return
`true`. -/
def stop (s : State) (maxCh : Nat) (disableOk : Nat → Bool) : CallResult :=
  if s.running then
    if enableLoopOk s.chanEnable disableOk 0 maxCh then
      ⟨Except.ok true,
        { s with running := false, buf16 := none, buf32 := none }⟩
    else ⟨Except.error (), { s with running := false }⟩
  else ⟨Except.ok true, s⟩

/-- Result of one `work()` call: the returned `int` (a produced count or
`WORK_DONE`), the state left behind, whether a `bladerf_sync_rx` call was
issued, and the per-channel output buffers written — each output element
is one `gr_complex` sample, a pair of floats (I, Q). -/
structure WorkResult where
  ret : Int
  st : State
  rxIssued : Bool
  outputs : List (List (ℚ × ℚ))

/-- The routing step of `work()` (lines 364-378), operating on whole
`gr_complex` samples: with more than one stream, deinterleave round-robin
— the double loop writes `out[ch][i] = conv[i * nstreams + ch]` for
`i < n / nstreams` — and with one stream, copy the first `n` converted
samples to the single output. -/
def route {α : Type} (conv : Nat → α) (n nstreams : Nat) : List (List α) :=
  if 1 < nstreams then
    (List.range nstreams).map fun ch =>
      (List.range (n / nstreams)).map fun i => conv (i * nstreams + ch)
  else
    [(List.range n).map conv]

/-- The tail of `work()` after the receive branch (lines 351-380): run the
conversion loop over the raw buffer into the float buffer, route the
converted buffer — read as `gr_complex` samples, sample `j` being the
float pair at positions `2j` and `2j+1` — to the outputs, and return
`noutput_items`. -/
def finishWork (s : State) (noutput_items nstreams : Nat) : WorkResult :=
  let raw := s.buf16.getD fun _ => 0
  let conv := convLoop raw (convIters noutput_items) (s.buf32.getD fun _ => 0)
  ⟨(noutput_items : Int), { s with buf32 := some conv }, true,
    route (fun j => (conv (2 * j), conv (2 * j + 1))) noutput_items nstreams⟩

/-- `bladerf_source_c::work()` (lines 313-381): if `_running` is false,
return 0 at once (no receive, no conversion, no state change). Otherwise
issue `bladerf_sync_rx`; on failure increment `_failures` and, once the
threshold is reached, return `WORK_DONE` — below the threshold the code
falls through to the conversion and routing over the stale buffer. On
success reset `_failures`, store the received words and fall through
likewise. `nstreams` is `num_streams(_layout)`, the configured channel
count. -/
def work (s : State) (noutput_items nstreams : Nat) (rx : RxOutcome) :
    WorkResult :=
  if s.running then
    match rx with
    | RxOutcome.err =>
      let s1 := { s with failures := s.failures + 1 }
      if MAX_CONSECUTIVE_FAILURES ≤ s1.failures then ⟨WORK_DONE, s1, true, []⟩
      else finishWork s1 noutput_items nstreams
    | RxOutcome.ok d =>
      finishWork { s with failures := 0, buf16 := some d } noutput_items nstreams
  else ⟨0, s, false, []⟩

/-- Successive `work()` calls with a given sequence of receive outcomes,
collecting the returned values. -/
def workRets (s : State) (n nstreams : Nat) : List RxOutcome → List Int
  | [] => []
  | rx :: rest =>
    let r := work s n nstreams rx
    r.ret :: workRets r.st n nstreams rest

/-- The scheduler-facing constraints installed by the constructor
(lines 164-167): `set_max_noutput_items(_samples_per_buffer)` caps each
call's requested count at `samples_per_buffer`, and
`set_output_multiple(get_num_channels())` makes every requested count a
multiple of the channel count. -/
def schedulerContract (n chans spb : Nat) : Prop := n % chans = 0 ∧ n ≤ spb

/-- C1: for every fixed-point input component x in range [-128, 127], the
sample conversion performed inside work() produces x / 127.0 with no
clamping; in particular -128 maps to -128/127 ≈ -1.0079, 0 to 0.0, 127 to
1.0 and 64 to 64/127 ≈ 0.504, and the value at -128 lies strictly below
-1 (no clamping). -/
theorem work_conversion_formula :
    (∀ x : ℤ, -128 ≤ x → x ≤ 127 →
      cvtComponent (byteOfInt8 x) = (x : ℚ) / 127) ∧
    cvtComponent (byteOfInt8 (-128)) = -128 / 127 ∧
    cvtComponent (byteOfInt8 0) = 0 ∧
    cvtComponent (byteOfInt8 127) = 1 ∧
    cvtComponent (byteOfInt8 64) = 64 / 127 ∧
    cvtComponent (byteOfInt8 (-128)) < -1 := by
  refine ⟨?_, by norm_num [cvtComponent, int8OfByte, byteOfInt8],
    by norm_num [cvtComponent, int8OfByte, byteOfInt8],
    by norm_num [cvtComponent, int8OfByte, byteOfInt8],
    by norm_num [cvtComponent, int8OfByte, byteOfInt8],
    by norm_num [cvtComponent, int8OfByte, byteOfInt8]⟩
  intro x h1 h2
  have h : int8OfByte (byteOfInt8 x) = x := by
    unfold int8OfByte byteOfInt8
    split <;> omega
  unfold cvtComponent
  rw [h]

/-- Witness for C1 at the concrete component value 64. -/
theorem work_conversion_formula_witness :
    cvtComponent (byteOfInt8 64) = (64 : ℚ) / 127 :=
  work_conversion_formula.1 64 (by decide) (by decide)

/-- The byte the conversion loop reads for output position `m` is the raw
buffer's byte at position `quadPerm m`: the loop de-packs the words in an
order that exchanges the two middle positions of every aligned quad. -/
theorem rawByteAt_eq_bufByteAt_quadPerm (raw : Nat → ℤ) (m : Nat) :
    rawByteAt raw m = bufByteAt raw (quadPerm m) := by
  have h4 : m % 4 = 0 ∨ m % 4 = 1 ∨ m % 4 = 2 ∨ m % 4 = 3 := by omega
  rcases h4 with h | h | h | h
  · have h2 : m % 2 = 0 := by omega
    have hi : m / 2 = 2 * (m / 4) := by omega
    simp [rawByteAt, bufByteAt, quadPerm, h, h2, hi]
  · have h2 : (m + 1) % 2 = 0 := by omega
    have hi : (m + 1) / 2 = 2 * (m / 4) + 1 := by omega
    simp [rawByteAt, bufByteAt, quadPerm, h, h2, hi]
  · have h2 : (m - 1) % 2 = 1 := by omega
    have hi : (m - 1) / 2 = 2 * (m / 4) := by omega
    simp [rawByteAt, bufByteAt, quadPerm, h, h2, hi]
  · have h2 : m % 2 = 1 := by omega
    have hi : m / 2 = 2 * (m / 4) + 1 := by omega
    simp [rawByteAt, bufByteAt, quadPerm, h, h2, hi]

/-- C2 counterexample: with raw words 0x0201 and 0x0403 the raw buffer's
component stream in memory order is 1, 2, 3, 4, but the conversion inside
work() writes components 1/127, 3/127, 2/127, 4/127 — output component 1
is the conversion of input component 2, not of input component 1,
refuting identical order preservation at this concrete input. -/
theorem work_conversion_order_counterexample :
    convLoop (fun i => if i = 0 then 513 else 1027) (convIters 2)
        (fun _ => 0) 1 =
      ((bufComponentAt (fun i => if i = 0 then 513 else 1027) 2 : ℤ) : ℚ)
        / 127 ∧
    convLoop (fun i => if i = 0 then 513 else 1027) (convIters 2)
        (fun _ => 0) 1 ≠
      ((bufComponentAt (fun i => if i = 0 then 513 else 1027) 1 : ℤ) : ℚ)
        / 127 := by
  have hval : convLoop (fun i => if i = 0 then 513 else 1027) (convIters 2)
      (fun _ => 0) 1 = (3 : ℚ) / 127 := by
    rw [convLoop_apply, if_pos (by norm_num [convIters])]
    norm_num [rawByteAt, cvtComponent, int8OfByte, lowByte]
  constructor
  · rw [hval]
    norm_num [bufComponentAt, bufByteAt, int8OfByte, lowByte]
  · rw [hval]
    norm_num [bufComponentAt, bufByteAt, int8OfByte, highByte, bits16]

/-- C2 (amended): the conversion inside work() maps the raw buffer's
fixed-point component stream to the converted buffer through the fixed
local permutation quadPerm, not identically: for every raw buffer, every
previous float-buffer contents and every component position m covered by
the call, output component m is the conversion of input component
quadPerm m, so positions 4j and 4j+3 of every aligned quad keep their
place while positions 4j+1 and 4j+2 are exchanged. -/
theorem work_conversion_quad_permuted_order (raw : Nat → ℤ) (init : Nat → ℚ)
    (n m : Nat) (hm : m < 2 * n) :
    convLoop raw (convIters n) init m =
      ((bufComponentAt raw (quadPerm m) : ℤ) : ℚ) / 127 := by
  rw [convLoop_apply, if_pos (by unfold convIters; omega),
    rawByteAt_eq_bufByteAt_quadPerm]
  rfl

/-- Witness for the amended C2 at component position 1 of a concrete
buffer of words 0x0201: the converted value there is the conversion of
input component quadPerm 1 = 2, untouched by the stale initial value 99. -/
theorem work_conversion_quad_permuted_order_witness :
    convLoop (fun _ => (513 : ℤ)) (convIters 2) (fun _ => (99 : ℚ)) 1 =
      ((bufComponentAt (fun _ => (513 : ℤ)) (quadPerm 1) : ℤ) : ℚ) / 127 :=
  work_conversion_quad_permuted_order (fun _ => (513 : ℤ)) (fun _ => (99 : ℚ))
    2 1 (by decide)

/-- C3 counterexample: with the source running, the failure counter at 0
and a single failed receive (counter stays below the threshold), work()
returns the requested count 2, not zero produced samples — refuting the
claim that such a call returns zero. -/
theorem work_transient_failure_not_zero :
    (work ⟨true, 0, some fun _ => 0, some fun _ => 0, fun _ => false⟩ 2 1
        RxOutcome.err).st.failures < MAX_CONSECUTIVE_FAILURES ∧
    (work ⟨true, 0, some fun _ => 0, some fun _ => 0, fun _ => false⟩ 2 1
        RxOutcome.err).ret = 2 := by
  constructor
  · show (1 : Nat) < 3
    decide
  · rfl

/-- C3 (amended): for every work() invocation in which a single receive
fails while the consecutive-failure counter stays below the threshold,
work() increments the counter, does not return the terminal signal, and
returns noutput_items produced samples (converted from the stale buffer
contents); streaming continues and a subsequent work() call with a
successful receive again produces samples. -/
theorem work_transient_failure_continues (s : State) (n k : Nat)
    (d : Nat → ℤ) (hrun : s.running = true)
    (hf : s.failures + 1 < MAX_CONSECUTIVE_FAILURES) :
    (work s n k RxOutcome.err).ret = (n : Int) ∧
    (work s n k RxOutcome.err).ret ≠ WORK_DONE ∧
    (work s n k RxOutcome.err).st.running = true ∧
    (work s n k RxOutcome.err).st.failures = s.failures + 1 ∧
    (work (work s n k RxOutcome.err).st n k (RxOutcome.ok d)).ret = (n : Int) := by
  have hth : ¬ MAX_CONSECUTIVE_FAILURES ≤ s.failures + 1 := by omega
  refine ⟨?_, ?_, ?_, ?_, ?_⟩ <;>
    simp [work, finishWork, hrun, hth, WORK_DONE]

/-- Witness for the amended C3 at a concrete running state. -/
theorem work_transient_failure_continues_witness :
    (work ⟨true, 1, some fun _ => 0, some fun _ => 0, fun _ => false⟩ 4 2
        RxOutcome.err).ret = (4 : Int) :=
  (work_transient_failure_continues
    ⟨true, 1, some fun _ => 0, some fun _ => 0, fun _ => false⟩ 4 2
    (fun _ => 5) rfl (by decide)).1

/-- C4: each failed receive increments the consecutive-failure counter and
any successful receive resets it to zero; starting from a clean counter, a
run of exactly MAX_CONSECUTIVE_FAILURES consecutive failed transfers (one
per work() call) makes the work() call performing the threshold-reaching
failure return WORK_DONE instead of a produced count, all earlier calls
still returning produced counts. -/
theorem failure_threshold (s : State) (n k : Nat) (d : Nat → ℤ)
    (hrun : s.running = true) :
    (work s n k RxOutcome.err).st.failures = s.failures + 1 ∧
    (work s n k (RxOutcome.ok d)).st.failures = 0 ∧
    (s.failures = 0 →
      workRets s n k (List.replicate MAX_CONSECUTIVE_FAILURES RxOutcome.err) =
        List.replicate (MAX_CONSECUTIVE_FAILURES - 1) (n : Int) ++ [WORK_DONE]) := by
  refine ⟨?_, ?_, ?_⟩
  · by_cases hth : MAX_CONSECUTIVE_FAILURES ≤ s.failures + 1 <;>
      simp [work, finishWork, hrun, hth]
  · simp [work, finishWork, hrun]
  · intro h0
    simp [MAX_CONSECUTIVE_FAILURES, List.replicate, workRets, work, finishWork,
      hrun, h0, WORK_DONE]

/-- Witness for C4 at a concrete running state with a clean counter. -/
theorem failure_threshold_witness :
    workRets ⟨true, 0, some fun _ => 0, some fun _ => 0, fun _ => false⟩ 5 1
        (List.replicate MAX_CONSECUTIVE_FAILURES RxOutcome.err) =
      List.replicate (MAX_CONSECUTIVE_FAILURES - 1) (5 : Int) ++ [WORK_DONE] :=
  (failure_threshold ⟨true, 0, some fun _ => 0, some fun _ => 0, fun _ => false⟩
    5 1 (fun _ => 0) rfl).2.2 rfl

/-- C5: under the constraints installed by the constructor
(set_max_noutput_items(samples_per_buffer) and
set_output_multiple(channel count)), every work(n) call while running
either returns the terminal signal or returns exactly n, a produced count
that is a multiple of the channel count and at most min(n,
samples_per_buffer). -/
theorem work_output_quantization (s : State) (n k chans spb : Nat)
    (rx : RxOutcome) (hrun : s.running = true)
    (hc : schedulerContract n chans spb) :
    (work s n k rx).ret = WORK_DONE ∨
    ((work s n k rx).ret = (n : Int) ∧ n % chans = 0 ∧ n ≤ min n spb) := by
  rcases hc with ⟨h1, h2⟩
  cases rx with
  | err =>
    by_cases hth : MAX_CONSECUTIVE_FAILURES ≤ s.failures + 1
    · left
      simp [work, hrun, hth]
    · right
      exact ⟨by simp [work, finishWork, hrun, hth], h1, by omega⟩
  | ok d =>
    right
    exact ⟨by simp [work, finishWork, hrun], h1, by omega⟩

/-- Witness for C5 at a concrete running state, with n = 4, channel
count 2 and samples_per_buffer 8. -/
theorem work_output_quantization_witness :
    (work ⟨true, 0, some fun _ => 0, some fun _ => 0, fun _ => false⟩ 4 2
        (RxOutcome.ok fun _ => 0)).ret = WORK_DONE ∨
    ((work ⟨true, 0, some fun _ => 0, some fun _ => 0, fun _ => false⟩ 4 2
        (RxOutcome.ok fun _ => 0)).ret = (4 : Int) ∧ 4 % 2 = 0 ∧ 4 ≤ min 4 8) :=
  work_output_quantization
    ⟨true, 0, some fun _ => 0, some fun _ => 0, fun _ => false⟩ 4 2 2 8
    (RxOutcome.ok fun _ => 0) rfl ⟨by decide, by decide⟩

/-- C6: the routing step copies the converted buffer verbatim to the
single output when there is one channel, and for two channels it
round-robin demultiplexes: input [a0,b0,a1,b1,a2,b2] yields
channel0 = [a0,a1,a2] and channel1 = [b0,b1,b2]. -/
theorem route_deinterleave :
    (∀ (conv : Nat → ℚ) (n : Nat),
      route conv n 1 = [(List.range n).map conv]) ∧
    (∀ a0 b0 a1 b1 a2 b2 : ℚ,
      route (fun i => [a0, b0, a1, b1, a2, b2].getD i 0) 6 2 =
        [[a0, a1, a2], [b0, b1, b2]]) := by
  constructor
  · intro conv n
    simp [route]
  · intro a0 b0 a1 b1 a2 b2
    rfl

/-- C7: calling stop() when the source is already stopped returns success
with no side effects — the whole state (running flag, channel-enable map,
scratch buffers) is unchanged. -/
theorem stop_when_stopped_noop (s : State) (maxCh : Nat)
    (disableOk : Nat → Bool) (h : s.running = false) :
    stop s maxCh disableOk = ⟨Except.ok true, s⟩ ∧
    (stop s maxCh disableOk).st.running = s.running ∧
    (stop s maxCh disableOk).st.chanEnable = s.chanEnable ∧
    (stop s maxCh disableOk).st.buf16 = s.buf16 ∧
    (stop s maxCh disableOk).st.buf32 = s.buf32 := by
  have hs : stop s maxCh disableOk = ⟨Except.ok true, s⟩ := by
    simp [stop, h]
  exact ⟨hs, by rw [hs], by rw [hs], by rw [hs], by rw [hs]⟩

/-- Witness for C7 at a concrete stopped state. -/
theorem stop_when_stopped_noop_witness :
    stop ⟨false, 0, none, none, fun _ => false⟩ 2 (fun _ => true) =
      ⟨Except.ok true, ⟨false, 0, none, none, fun _ => false⟩⟩ :=
  (stop_when_stopped_noop ⟨false, 0, none, none, fun _ => false⟩ 2
    (fun _ => true) rfl).1

/-- C8: if any step of start() fails — the stream configuration call or
enabling one of the channels — the call surfaces the error and the session
state is left exactly as it was, so the running flag stays false and no
partial-start state is observable. -/
theorem start_failure_leaves_stopped (s : State) (maxCh : Nat)
    (configOk : Bool) (enableOk : Nat → Bool) (hstopped : s.running = false)
    (hfail : configOk = false ∨
      enableLoopOk s.chanEnable enableOk 0 maxCh = false) :
    (start s maxCh configOk enableOk).ret = Except.error () ∧
    (start s maxCh configOk enableOk).st = s ∧
    (start s maxCh configOk enableOk).st.running = false := by
  have hs : start s maxCh configOk enableOk = ⟨Except.error (), s⟩ := by
    rcases hfail with hc | he
    · simp [start, hc]
    · cases configOk <;> simp [start, he]
  rw [hs]
  exact ⟨rfl, rfl, hstopped⟩

/-- Witness for C8: configuration succeeds but enabling the (enabled)
channel 0 fails, so start() throws and the state is untouched. -/
theorem start_failure_leaves_stopped_witness :
    (start ⟨false, 0, none, none, fun _ => true⟩ 2 true (fun _ => false)).ret =
      Except.error () :=
  (start_failure_leaves_stopped ⟨false, 0, none, none, fun _ => true⟩ 2 true
    (fun _ => false) rfl (Or.inr (by decide))).1

/-- C9: work() called while the source is not running is a no-op returning
zero produced items — no receive is issued, no conversion or routing is
performed, and the session state is unchanged. -/
theorem work_not_running_noop (s : State) (n k : Nat) (rx : RxOutcome)
    (h : s.running = false) :
    work s n k rx = ⟨0, s, false, []⟩ := by
  simp [work, h]

/-- Witness for C9 at a concrete stopped state. -/
theorem work_not_running_noop_witness :
    work ⟨false, 2, none, none, fun _ => false⟩ 8 1 RxOutcome.err =
      ⟨0, ⟨false, 2, none, none, fun _ => false⟩, false, []⟩ :=
  work_not_running_noop ⟨false, 2, none, none, fun _ => false⟩ 8 1
    RxOutcome.err rfl

/-- C10: stop() clears the running flag before the fallible channel-disable
calls, so whether or not a teardown step throws, the state stop() leaves
behind has the running flag false, and every subsequent work() call on
that state returns zero produced items without doing anything. -/
theorem stop_clears_running_before_teardown (s : State) (maxCh n k : Nat)
    (disableOk : Nat → Bool) (rx : RxOutcome) (h : s.running = true) :
    (stop s maxCh disableOk).st.running = false ∧
    work (stop s maxCh disableOk).st n k rx =
      ⟨0, (stop s maxCh disableOk).st, false, []⟩ := by
  have hrun : (stop s maxCh disableOk).st.running = false := by
    simp only [stop, h, if_true]
    split <;> rfl
  exact ⟨hrun, by simp [work, hrun]⟩

/-- Witness for C10 at a concrete running state whose channel 0 is enabled
and whose disable call fails, exercising the throwing teardown path. -/
theorem stop_clears_running_before_teardown_witness :
    (stop ⟨true, 0, some fun _ => 0, some fun _ => 0, fun _ => true⟩ 2
        (fun _ => false)).st.running = false :=
  (stop_clears_running_before_teardown
    ⟨true, 0, some fun _ => 0, some fun _ => 0, fun _ => true⟩ 2 1 1
    (fun _ => false) RxOutcome.err rfl).1

end BladerfSource
